import Mathlib

/-!
Verification development for the `vite-plugin-typed-css-modules` plugin
(`src/index.ts`).  The plugin keeps generated `.d.ts` declaration files for
CSS-module stylesheets in sync with their sources: a path filter decides which
files are in scope, a path mapper places declaration output either beside the
source (in-place mode) or under a relocated output root (`rootDir` mode), a
discovery scanner finds the initial file set, and a `watchChange` reactor
handles create/update/delete watcher events.

The development is a shallow embedding: each definition below is translated
from the corresponding TypeScript function.  JavaScript strings are Lean
`String`s, `undefined` is `Option.none`, fallible code returns `Except`,
and the Node `path` module (posix flavour) is modelled segment-wise.
External collaborators (the `typed-css-modules` generator, `fdir`, vite's
`createFilter`) are modelled at their documented interface boundary.
-/

namespace VitePluginTypedCssModules

/-- Model of JavaScript `String.prototype.startsWith`. -/
def jsStartsWith (s pre : String) : Bool := pre.toList.isPrefixOf s.toList

/-- Model of JavaScript `String.prototype.endsWith`. -/
def jsEndsWith (s suf : String) : Bool := suf.toList.isSuffixOf s.toList

/-- Splits a character list on `/` separators (model of splitting a path
string on the posix separator, as Node's path module does internally). -/
def splitOnSlash : List Char → List (List Char)
  | [] => [[]]
  | c :: cs =>
    if c = '/' then [] :: splitOnSlash cs
    else
      match splitOnSlash cs with
      | [] => [[c]]
      | seg :: rest => (c :: seg) :: rest

/-- Raw separator-split of a path string into segments. -/
def splitPath (p : String) : List String :=
  (splitOnSlash p.toList).map (fun l => String.mk l)

/-- Normalizes a segment list the way Node `path.resolve`/`path.normalize`
treat an absolute path: empty and `.` segments are dropped and `..` pops the
previous segment (a `..` above the root is discarded). -/
def normSegs (segs : List String) : List String :=
  segs.foldl
    (fun acc s =>
      if s = "" then acc
      else if s = "." then acc
      else if s = ".." then acc.dropLast
      else acc ++ [s])
    []

/-- Normalized segment list of a path string. -/
def pathSegs (p : String) : List String := normSegs (splitPath p)

/-- Reassembles segments with `/` separators (the inverse of splitting; model
of how Node's path module renders a segment list). -/
def joinSegs : List String → String
  | [] => ""
  | [s] => s
  | s :: rest => s ++ "/" ++ joinSegs rest

/-- Model of Node posix `path.isAbsolute`. -/
def pathIsAbsolute (p : String) : Bool := jsStartsWith p "/"

/-- Segment-level core of Node posix `path.relative`: drop the common prefix,
then go up (`..`) once per remaining segment of `from` and down the remaining
segments of `to`. -/
def relSegs : List String → List String → List String
  | [], t => t
  | f, [] => f.map (fun _ => "..")
  | a :: f, b :: t =>
    if a = b then relSegs f t
    else ((a :: f).map (fun _ => "..")) ++ b :: t

/-- Model of Node posix `path.relative` for the absolute, already-resolved
paths the plugin passes to it (both arguments are pinned to absolute paths by
`configResolved` before any call site runs). -/
def pathRelative (f t : String) : String :=
  joinSegs (relSegs (pathSegs f) (pathSegs t))

/-- Model of Node posix `path.join` for two parts, as used by the plugin
(the first argument is an absolute directory at every call site): the parts
are concatenated with a separator and the result normalized, keeping a
leading `/` when present. -/
def pathJoin (a b : String) : String :=
  let joined := if a = "" then b else if b = "" then a else a ++ "/" ++ b
  let norm := joinSegs (normSegs (splitPath joined))
  if jsStartsWith joined "/" then "/" ++ norm
  else if norm = "" then "." else norm

/-- Translation of `isInFolder` (src/index.ts lines 83-86): true when
`filePath` is located within `folderPath`, decided purely lexically via
`path.relative`, never consulting the disk. -/
def isInFolder (filePath folderPath : String) : Bool :=
  let relative := pathRelative folderPath filePath
  !(jsStartsWith relative "..")

/-- An atomic vite filter pattern: a glob string or a regular expression.
A `RegExp` is modelled extensionally by its match function. -/
inductive AtomicPattern where
  | str (s : String)
  | regex (test : String → Bool)

/-- Model of vite's `FilterPattern` type
(`string | RegExp | (string | RegExp)[] | null`). -/
inductive FilterPattern where
  | null
  | str (s : String)
  | regex (test : String → Bool)
  | arr (elems : List AtomicPattern)

/-- JavaScript truthiness of a `FilterPattern` value: `null` and the empty
string are falsy; regexes and arrays (even empty ones) are truthy. -/
def FilterPattern.truthy : FilterPattern → Bool
  | .null => false
  | .str s => !(s == "")
  | .regex _ => true
  | .arr _ => true

/-- Model of `@rollup/pluginutils` `ensureArray` applied to a
`FilterPattern`: `null` becomes the empty list, an array is kept, and a
single pattern is wrapped. -/
def FilterPattern.toList : FilterPattern → List AtomicPattern
  | .null => []
  | .str s => [.str s]
  | .regex t => [.regex t]
  | .arr l => l

/-- Translation of `coerceArray` (src/index.ts lines 70-77) at the
`FilterPattern` instantiation used for the `ignore` option: `null` and
`undefined` give `[]`, an array is kept as is, anything else is wrapped. -/
def coerceArray : Option FilterPattern → List AtomicPattern
  | none => []
  | some .null => []
  | some (.str s) => [.str s]
  | some (.regex t) => [.regex t]
  | some (.arr l) => l

/-- Model of the deprecated `fileExtension` option's value
(`` `.${string}` | `.${string}`[] ``). -/
inductive FileExtension where
  | str (s : String)
  | arr (l : List String)

/-- JavaScript truthiness of a `fileExtension` value. -/
def FileExtension.truthy : FileExtension → Bool
  | .str s => !(s == "")
  | .arr _ => true

/-- Translation of `coerceArray` at the `fileExtension` instantiation. -/
def FileExtension.coerce : FileExtension → List String
  | .str s => [s]
  | .arr l => l

/-- Model of picomatch glob matching as invoked through vite's
`createFilter`, restricted to the pattern shapes this plugin constructs.
Every glob the plugin itself builds has the form `**/*<suffix>` (the default
include `**/*.module.css`, the implicit ignore `**/*.d.ts`, and the globs
derived from `fileExtension`); such a pattern matches exactly the paths
ending in `<suffix>`, and since it starts with `**` it is not resolved
against the filter's base directory.  Matching of other glob shapes is not
exercised by this development and is modelled as literal equality. -/
def globMatch (pattern p : String) : Bool :=
  if jsStartsWith pattern "**/*" then jsEndsWith p (String.mk (pattern.toList.drop 4))
  else pattern == p

/-- Matching of one atomic pattern against a path. -/
def matchAtomic (pat : AtomicPattern) (id : String) : Bool :=
  match pat with
  | .str s => globMatch s id
  | .regex t => t id

/-- Model of vite's `createFilter` (re-exported from `@rollup/pluginutils`):
a path is rejected as soon as any exclude pattern matches; otherwise it is
accepted iff some include pattern matches (or the include list is empty). -/
def createFilter (includePats ignorePats : List AtomicPattern) (id : String) : Bool :=
  if ignorePats.any (fun pat => matchAtomic pat id) then false
  else if includePats.any (fun pat => matchAtomic pat id) then true
  else includePats.isEmpty

/-- Translation of the `TypedCssModulesOptions` type (src/index.ts lines
13-60).  `Option.none` models an omitted (`undefined`) field. -/
structure TypedCssModulesOptions where
  «include» : Option FilterPattern := none
  ignore : Option FilterPattern := none
  verbose : Bool := false
  rootDir : Option String := none
  srcDir : Option String := none
  fileExtension : Option FileExtension := none

/-- Translation of `defaultFilesGlob` (src/index.ts line 62). -/
def defaultFilesGlob : String := "**/*.module.css"

/-- Translation of `defaultSrcDir` (src/index.ts line 63). -/
def defaultSrcDir : String := "src"

/-- Translation of the option-validation prefix of `plugin` (src/index.ts
lines 88-99): computes the effective `include` pattern, throwing the
configuration error when both `include` and `fileExtension` are supplied
with truthy values, and otherwise deriving `include` from `fileExtension`
when only the latter is given.  This runs synchronously at plugin
construction, before any hook fires and before any file is read. -/
def resolveInclude (options : Option TypedCssModulesOptions) : Except String FilterPattern :=
  let inc : FilterPattern :=
    match options.bind (fun o => o.«include») with
    | none => .str defaultFilesGlob
    | some .null => .str defaultFilesGlob
    | some p => p
  match options with
  | none => .ok inc
  | some o =>
    match o.fileExtension with
    | none => .ok inc
    | some fe =>
      if fe.truthy then
        if (match o.«include» with | none => false | some p => p.truthy) then
          .error "Pick either the `include` or `fileExtension` option, not both."
        else
          .ok (.arr ((fe.coerce).map (fun extension => .str ("**/*" ++ extension))))
      else .ok inc

/-- Statement of the spec's configuration invariant, written from the spec's
words for comparison with `resolveInclude`: both the legacy extension list
and the include patterns are supplied (as usable, truthy values). -/
def specBothSupplied (options : Option TypedCssModulesOptions) : Bool :=
  match options with
  | none => false
  | some o =>
    (match o.fileExtension with | none => false | some fe => fe.truthy)
      && (match o.«include» with | none => false | some p => p.truthy)

/-- The two directories `configResolved` pins down. -/
structure ResolvedDirs where
  rootOutputDir : Option String
  srcDir : String
deriving DecidableEq

/-- Translation of the `configResolved` hook (src/index.ts lines 225-235)
together with the initialisation at lines 109-110: `rootDir`, when supplied
and truthy, is joined under the project root (a falsy empty string is kept
as initialised at line 109), and `srcDir` (defaulting to `"src"`) is always
joined under the project root. -/
def resolveDirs (options : Option TypedCssModulesOptions) (projectRoot : String) : ResolvedDirs :=
  { rootOutputDir :=
      match options.bind (fun o => o.rootDir) with
      | none => none
      | some r => if r = "" then some r else some (pathJoin projectRoot r)
    srcDir := pathJoin projectRoot ((options.bind (fun o => o.srcDir)).getD defaultSrcDir) }

/-- JavaScript truthiness of the mutable `rootOutputDir` binding
(`undefined` and the empty string are falsy). -/
def optStrTruthy : Option String → Bool
  | none => false
  | some s => !(s == "")

/-- Translation of the plugin's `filter`/`isCssModule` functions
(src/index.ts lines 125-144): the user's `ignore` patterns are
unconditionally extended with the implicit `**/*.d.ts` exclusion, and the
resulting `createFilter` decides scope membership. -/
def pluginFilter (includePat : FilterPattern) (ignoreOpt : Option FilterPattern)
    (id : String) : Bool :=
  createFilter includePat.toList (coerceArray ignoreOpt ++ [AtomicPattern.str "**/*.d.ts"]) id

/-- Translation of `getRelativePath` (src/index.ts lines 146-149): an
absolute path is taken relative to `srcDir`; a relative path is returned
verbatim. -/
def getRelativePath (srcDir file : String) : String :=
  if pathIsAbsolute file then pathRelative srcDir file else file

/-- The vite command under which the plugin runs (`viteConfig.command`). -/
inductive Command where
  | build
  | serve
deriving DecidableEq

/-- Observable effect of one `generateTypeDefinitions` call: the declaration
write that happened (output path and text), the error logged by the `catch`
block, and the error re-thrown to the caller. -/
structure GenEffect where
  written : Option (String × String) := none
  loggedError : Option String := none
  thrown : Option String := none
deriving DecidableEq

/-- Translation of `generateTypeDefinitions` (src/index.ts lines 151-182).
`create` models the opaque, fallible `DtsCreator.create` transformation
pipeline (a malformed or unreadable stylesheet yields `.error`).  When
`rootOutputDir` is truthy the output path is `rootOutputDir` joined with
`getRelativePath(file) + ".d.ts"`; otherwise the external generator's
`dts.writeFile()` writes in place at `file + ".d.ts"` (the generator's
documented convention, spec section 6).  On failure the error is always
logged, and re-thrown exactly when the command is not `serve`. -/
def generateTypeDefinitions (command : Option Command) (rootOutputDir : Option String)
    (srcDir : String) (create : String → Except String String) (file : String) : GenEffect :=
  match create file with
  | .ok dts =>
    match rootOutputDir with
    | some r =>
      if !(r == "") then
        { written := some (pathJoin r (getRelativePath srcDir file ++ ".d.ts"), dts) }
      else
        { written := some (file ++ ".d.ts", dts) }
    | none => { written := some (file ++ ".d.ts", dts) }
  | .error e =>
    { loggedError := some e
      thrown := if command = some Command.serve then none else some e }

/-- Observable outcome of one `watchChange` invocation. -/
structure WatchOutcome where
  skippedOutsideSrc : Bool := false
  skippedFilter : Bool := false
  generated : Option GenEffect := none
  deletedPath : Option String := none
  deleteMissing : Bool := false
  caughtError : Option String := none
deriving DecidableEq

/-- The all-quiet outcome, refined by each branch of `watchChange`. -/
def WatchOutcome.base : WatchOutcome := {}

instance {ε α : Type} [DecidableEq ε] [DecidableEq α] : DecidableEq (Except ε α) := fun a b =>
  match a, b with
  | .ok x, .ok y =>
    if h : x = y then .isTrue (by rw [h]) else .isFalse (by simp [h])
  | .error x, .error y =>
    if h : x = y then .isTrue (by rw [h]) else .isFalse (by simp [h])
  | .ok _, .error _ => .isFalse (by simp)
  | .error _, .ok _ => .isFalse (by simp)

/-- Translation of the `watchChange` hook (src/index.ts lines 245-304).
The event kind arrives as a raw string from the watcher.  An `Except.error`
result would model an exception escaping the hook; the source's terminal
`.catch` converts every exception of the inner `async` body (including the
`assertUnreachable` throw of lines 66-68 reached from the `default` switch
case) into a `console.error` log, recorded here as `caughtError`.
`fsExists` models `fs.existsSync`. -/
def watchChange (command : Option Command) (dirs : ResolvedDirs)
    (includePat : FilterPattern) (ignoreOpt : Option FilterPattern)
    (create : String → Except String String) (fsExists : String → Bool)
    (file : String) (event : String) : Except String WatchOutcome :=
  if !(isInFolder file dirs.srcDir) then
    .ok { WatchOutcome.base with skippedOutsideSrc := true }
  else if !(pluginFilter includePat ignoreOpt file) then
    .ok { WatchOutcome.base with skippedFilter := true }
  else
    let inner : Except String WatchOutcome :=
      if event == "create" || event == "update" then
        let g := generateTypeDefinitions command dirs.rootOutputDir dirs.srcDir create file
        match g.thrown with
        | some e => .error e
        | none => .ok { WatchOutcome.base with generated := some g }
      else if event == "delete" then
        let dtsPath :=
          if optStrTruthy dirs.rootOutputDir then
            pathJoin (dirs.rootOutputDir.getD "") (getRelativePath dirs.srcDir file ++ ".d.ts")
          else file ++ ".d.ts"
        if fsExists dtsPath then
          .ok { WatchOutcome.base with deletedPath := some dtsPath }
        else
          .ok { WatchOutcome.base with deleteMissing := true }
      else .error ("Unreachable value: " ++ event)
    match inner with
    | .ok o => .ok o
    | .error e => .ok { WatchOutcome.base with caughtError := some e }

/-- The declaration path the `delete` branch of `watchChange` computes
(src/index.ts lines 280-282), named so theorems can relate it to the path
`generateTypeDefinitions` writes to. -/
def deleteDtsPath (dirs : ResolvedDirs) (file : String) : String :=
  if optStrTruthy dirs.rootOutputDir then
    pathJoin (dirs.rootOutputDir.getD "") (getRelativePath dirs.srcDir file ++ ".d.ts")
  else file ++ ".d.ts"

/-- A filesystem subtree, for modelling the `fdir` walk. -/
inductive FsEntry where
  | file (name : String)
  | dir (name : String) (children : List FsEntry)

mutual
/-- Model of the `fdir` crawl configured in `getAllMatchingFiles`
(src/index.ts lines 188-211): full paths, directories named `node_modules`
excluded unconditionally, every other directory traversed, and the plugin
filter applied to every visited file. -/
def crawlEntry (filterFn : String → Bool) (parent : String) : FsEntry → List String
  | .file n =>
    let p := parent ++ "/" ++ n
    if filterFn p then [p] else []
  | .dir n children =>
    if n == "node_modules" then []
    else crawlList filterFn (parent ++ "/" ++ n) children

/-- Crawl of a list of sibling entries. -/
def crawlList (filterFn : String → Bool) (parent : String) : List FsEntry → List String
  | [] => []
  | e :: es => crawlEntry filterFn parent e ++ crawlList filterFn parent es
end

/-- Translation of `getAllMatchingFiles` (src/index.ts lines 188-211): the
crawl starts at the resolved `srcDir` (line 205 crawls `srcDir`), whose
children are `rootChildren`. -/
def getAllMatchingFiles (filterFn : String → Bool) (srcDir : String)
    (rootChildren : List FsEntry) : List String :=
  crawlList filterFn srcDir rootChildren

/-- The directory the Discovery Scanner walks, as a function of the options
and the project root: `getAllMatchingFiles` always crawls the `srcDir`
binding that `configResolved` set (src/index.ts lines 205 and 232-234),
whether or not `rootDir` is configured. -/
def scanRoot (options : Option TypedCssModulesOptions) (projectRoot : String) : String :=
  (resolveDirs options projectRoot).srcDir

end VitePluginTypedCssModules

namespace VitePluginTypedCssModules

theorem relSegs_common (D f t : List String) : relSegs (D ++ f) (D ++ t) = relSegs f t := by
  induction D with
  | nil => rfl
  | cons d D ih =>
    simp only [List.cons_append, relSegs, if_pos rfl]
    exact ih

theorem relSegs_self (X : List String) : relSegs X X = [] := by
  have h := relSegs_common X [] []
  rw [List.append_nil] at h
  exact h

theorem relSegs_append_right (X R : List String) : relSegs X (X ++ R) = R := by
  have h := relSegs_common X [] R
  rw [List.append_nil] at h
  exact h.trans (by cases R <;> rfl)

theorem jsStartsWith_append (s t : String) : jsStartsWith (s ++ t) s = true := by
  simp only [jsStartsWith, String.toList, String.data_append,
    List.isPrefixOf_iff_prefix]
  exact List.prefix_append _ _

theorem jsStartsWith_joinSegs_dotdot (l : List String) :
    jsStartsWith (joinSegs (".." :: l)) ".." = true := by
  cases l with
  | nil => decide
  | cons x xs =>
    show jsStartsWith (".." ++ "/" ++ joinSegs (x :: xs)) ".." = true
    rw [String.append_assoc]
    exact jsStartsWith_append ".." ("/" ++ joinSegs (x :: xs))

theorem append_ne_self_of_ne_empty (n t : String) (h : ¬ t = "") : ¬ (n ++ t = n) := by
  intro he
  apply h
  have hl := congrArg String.length he
  rw [String.length_append] at hl
  have hz : t.length = 0 := by omega
  cases t with
  | mk d =>
    cases d with
    | nil => rfl
    | cons a b => simp [String.length] at hz

end VitePluginTypedCssModules

namespace VitePluginTypedCssModules

/-- Claim C2: for every path and every user-supplied include/ignore
configuration, if the path matches an ignore pattern or ends in the
declaration suffix `.d.ts`, the scope filter returns false — even when the
path also matches an include pattern (the include patterns are universally
quantified, so in particular the unconditional `.d.ts` exclusion cannot be
overridden by any user configuration). -/
theorem scope_filter_never_matches (includePat : FilterPattern) (ignoreOpt : Option FilterPattern)
    (id : String)
    (h : (coerceArray ignoreOpt).any (fun pat => matchAtomic pat id) = true
         ∨ jsEndsWith id ".d.ts" = true) :
    pluginFilter includePat ignoreOpt id = false := by
  have hdts : matchAtomic (AtomicPattern.str "**/*.d.ts") id = jsEndsWith id ".d.ts" := by
    have h1 : jsStartsWith "**/*.d.ts" "**/*" = true := by decide
    have h2 : String.mk ("**/*.d.ts".toList.drop 4) = ".d.ts" := by decide
    simp [matchAtomic, globMatch, h1, h2]
  have hany : ((coerceArray ignoreOpt ++ [AtomicPattern.str "**/*.d.ts"]).any
      (fun pat => matchAtomic pat id)) = true := by
    rw [List.any_append]
    rcases h with h | h
    · rw [h]
      rfl
    · simp [List.any, hdts, h]
  simp [pluginFilter, createFilter, hany]

/-- Claim C2 witness: a declaration file is rejected by the filter even
under an include pattern (a regex) that matches every path. -/
theorem scope_filter_never_matches_witness :
    pluginFilter (FilterPattern.regex (fun _ => true)) none "/proj/src/a.d.ts" = false :=
  scope_filter_never_matches (FilterPattern.regex (fun _ => true)) none "/proj/src/a.d.ts"
    (Or.inr (by decide))

/-- Claim C3 (code evaluated at the failing input): with `rootDir` unset
(in-place mode) and default options, a `create` event for an in-scope
stylesheet at the project root — the layout of the repository's own watch
tests — is skipped by the unconditional `srcDir` guard instead of being
processed: the path matches the default include filter, yet `watchChange`
returns the `skippedOutsideSrc` outcome because `/proj/sample2.module.css`
is outside the resolved `srcDir` `/proj/src`. -/
theorem watch_inplace_skips_outside_srcdir :
    pluginFilter (FilterPattern.str defaultFilesGlob) none "/proj/sample2.module.css" = true
  ∧ watchChange (some .serve) (resolveDirs none "/proj") (FilterPattern.str defaultFilesGlob) none
        (fun _ => Except.ok "T") (fun _ => false) "/proj/sample2.module.css" "create"
      = Except.ok { WatchOutcome.base with skippedOutsideSrc := true } := by
  constructor <;> decide

/-- Claim C4 counterexample: an unrecognized event kind does NOT propagate
an error out of the event handler.  At a concrete in-scope input with event
kind `"rename"`, `watchChange` returns normally (`Except.ok`): the
`assertUnreachable` throw is intercepted by the handler's terminal `.catch`
and merely logged, refuting the claim that it is "always thrown and never
swallowed or merely logged". -/
theorem unknown_event_swallowed_concrete :
    watchChange (some .serve) (resolveDirs none "/proj") (FilterPattern.str defaultFilesGlob) none
        (fun _ => Except.ok "T") (fun _ => false) "/proj/src/a.module.css" "rename"
      = Except.ok { WatchOutcome.base with caughtError := some "Unreachable value: rename" } := by
  decide

/-- Claim C4 (amended): for every watcher event whose kind is not one of
create, update or delete, for an in-scope path under `srcDir`, the handler
raises the `Unreachable value` error inside its wrapped body, but the
terminal catch intercepts and logs it, and `watchChange` itself returns
normally — the error never propagates out of the event handler. -/
theorem unknown_event_logged_not_thrown (command : Option Command) (dirs : ResolvedDirs)
    (includePat : FilterPattern) (ignoreOpt : Option FilterPattern)
    (create : String → Except String String) (fsExists : String → Bool)
    (file event : String)
    (hin : isInFolder file dirs.srcDir = true)
    (hfil : pluginFilter includePat ignoreOpt file = true)
    (hc : (event == "create") = false) (hu : (event == "update") = false)
    (hd : (event == "delete") = false) :
    watchChange command dirs includePat ignoreOpt create fsExists file event
      = Except.ok { WatchOutcome.base with caughtError := some ("Unreachable value: " ++ event) } := by
  simp [watchChange, hin, hfil, hc, hu, hd]

/-- Claim C4 witness: the amended theorem at the concrete event kind
`"change"`. -/
theorem unknown_event_logged_not_thrown_witness :
    watchChange (some .serve) (resolveDirs none "/proj") (FilterPattern.str defaultFilesGlob) none
        (fun _ => Except.ok "T") (fun _ => false) "/proj/src/b.module.css" "change"
      = Except.ok { WatchOutcome.base with
          caughtError := some ("Unreachable value: " ++ "change") } :=
  unknown_event_logged_not_thrown (some .serve) (resolveDirs none "/proj")
    (FilterPattern.str defaultFilesGlob) none (fun _ => Except.ok "T") (fun _ => false)
    "/proj/src/b.module.css" "change" (by decide) (by decide) (by decide) (by decide) (by decide)

/-- Claim C5: when the generation pipeline fails for a source path, in build
mode the error is re-thrown to the caller (aborting the build) after being
logged, while in serve (watch) mode it is only logged and the call returns
normally (nothing thrown, nothing written), so the session continues. -/
theorem generation_error_mode_routing (rootOutputDir : Option String) (srcDir file e : String)
    (create : String → Except String String)
    (hc : create file = Except.error e) :
    ((generateTypeDefinitions (some .build) rootOutputDir srcDir create file).thrown = some e
      ∧ (generateTypeDefinitions (some .build) rootOutputDir srcDir create file).loggedError = some e
      ∧ (generateTypeDefinitions (some .build) rootOutputDir srcDir create file).written = none)
  ∧ ((generateTypeDefinitions (some .serve) rootOutputDir srcDir create file).thrown = none
      ∧ (generateTypeDefinitions (some .serve) rootOutputDir srcDir create file).loggedError = some e
      ∧ (generateTypeDefinitions (some .serve) rootOutputDir srcDir create file).written = none) := by
  simp [generateTypeDefinitions, hc]

/-- Claim C5 witness: the routing at a concrete failing stylesheet. -/
theorem generation_error_mode_routing_witness :
    (((generateTypeDefinitions (some .build) none "/proj/src"
          (fun _ => Except.error "boom") "/proj/src/a.module.css").thrown = some "boom"
      ∧ (generateTypeDefinitions (some .build) none "/proj/src"
          (fun _ => Except.error "boom") "/proj/src/a.module.css").loggedError = some "boom"
      ∧ (generateTypeDefinitions (some .build) none "/proj/src"
          (fun _ => Except.error "boom") "/proj/src/a.module.css").written = none)
  ∧ ((generateTypeDefinitions (some .serve) none "/proj/src"
          (fun _ => Except.error "boom") "/proj/src/a.module.css").thrown = none
      ∧ (generateTypeDefinitions (some .serve) none "/proj/src"
          (fun _ => Except.error "boom") "/proj/src/a.module.css").loggedError = some "boom"
      ∧ (generateTypeDefinitions (some .serve) none "/proj/src"
          (fun _ => Except.error "boom") "/proj/src/a.module.css").written = none)) :=
  generation_error_mode_routing none "/proj/src" "/proj/src/a.module.css" "boom"
    (fun _ => Except.error "boom") rfl

/-- Claim C6: supplying both the `include` option and the deprecated
`fileExtension` option (as truthy values, i.e. actually usable ones) makes
plugin construction fail with the configuration error, and supplying only
one or neither never does: construction succeeds exactly when the spec's
"both supplied" condition is false.  The validation is a pure function of
the options alone, so it runs synchronously at construction, before any
file is scanned or processed. -/
theorem include_fileExtension_exclusive (options : Option TypedCssModulesOptions) :
    (resolveInclude options).isOk = !(specBothSupplied options) := by
  cases options with
  | none => rfl
  | some o =>
    cases hfe : o.fileExtension with
    | none => simp [resolveInclude, specBothSupplied, hfe, Except.isOk, Except.toBool]
    | some fe =>
      cases htr : fe.truthy with
      | false => simp [resolveInclude, specBothSupplied, hfe, htr, Except.isOk, Except.toBool]
      | true =>
        cases hinc : (match o.«include» with | none => false | some p => p.truthy) with
        | false => simp [resolveInclude, specBothSupplied, hfe, htr, hinc, Except.isOk, Except.toBool]
        | true => simp [resolveInclude, specBothSupplied, hfe, htr, hinc, Except.isOk, Except.toBool]

end VitePluginTypedCssModules

namespace VitePluginTypedCssModules

/-- Claim C7: for every in-scope path under `srcDir` (both guards pass), the
delete branch of `watchChange` computes the declaration path with the same
mapping `generateTypeDefinitions` writes to; if the declaration exists it is
removed, and if it does not exist the event is a logged no-op that raises no
error (the outcome is `Except.ok` with no caught error in both cases). -/
theorem delete_event_roundtrip (command : Option Command) (dirs : ResolvedDirs)
    (includePat : FilterPattern) (ignoreOpt : Option FilterPattern)
    (create : String → Except String String) (fsExists : String → Bool) (file : String)
    (hin : isInFolder file dirs.srcDir = true)
    (hfil : pluginFilter includePat ignoreOpt file = true) :
    (∀ t, create file = Except.ok t →
        (generateTypeDefinitions command dirs.rootOutputDir dirs.srcDir create file).written
          = some (deleteDtsPath dirs file, t))
  ∧ (fsExists (deleteDtsPath dirs file) = true →
        watchChange command dirs includePat ignoreOpt create fsExists file "delete"
          = Except.ok { WatchOutcome.base with deletedPath := some (deleteDtsPath dirs file) })
  ∧ (fsExists (deleteDtsPath dirs file) = false →
        watchChange command dirs includePat ignoreOpt create fsExists file "delete"
          = Except.ok { WatchOutcome.base with deleteMissing := true }) := by
  have e1 : (("delete" : String) == "create") = false := by decide
  have e2 : (("delete" : String) == "update") = false := by decide
  have e3 : (("delete" : String) == "delete") = true := by decide
  refine ⟨?_, ?_, ?_⟩
  · intro t hc
    cases hro : dirs.rootOutputDir with
    | none => simp [generateTypeDefinitions, hc, deleteDtsPath, optStrTruthy, hro]
    | some r =>
      cases hr : (r == "") with
      | true => simp [generateTypeDefinitions, hc, deleteDtsPath, optStrTruthy, hro, hr]
      | false => simp [generateTypeDefinitions, hc, deleteDtsPath, optStrTruthy, hro, hr]
  · intro hex
    simp only [deleteDtsPath] at hex
    simp [watchChange, hin, hfil, e1, e2, e3, hex, deleteDtsPath]
  · intro hex
    simp only [deleteDtsPath] at hex
    simp [watchChange, hin, hfil, e1, e2, e3, hex, deleteDtsPath]

/-- Claim C7 witness: deleting an in-scope stylesheet whose in-place
declaration exists removes exactly that declaration. -/
theorem delete_event_roundtrip_witness :
    watchChange (some .serve) (resolveDirs none "/proj") (FilterPattern.str defaultFilesGlob) none
        (fun _ => Except.ok "T") (fun p => p == "/proj/src/a.module.css.d.ts")
        "/proj/src/a.module.css" "delete"
      = Except.ok { WatchOutcome.base with
          deletedPath := some (deleteDtsPath (resolveDirs none "/proj") "/proj/src/a.module.css") } :=
  (delete_event_roundtrip (some .serve) (resolveDirs none "/proj")
      (FilterPattern.str defaultFilesGlob) none (fun _ => Except.ok "T")
      (fun p => p == "/proj/src/a.module.css.d.ts") "/proj/src/a.module.css"
      (by decide) (by decide)).2.1 (by decide)

/-- Claim C8: when `rootDir` is set (resolved to a truthy `out`), a source
stylesheet at an absolute path under `sourceRoot` — expressed as: its
normalized segments are `sourceRoot`'s segments followed by `rsegs` — has
its declaration written at `out` joined with exactly those relative
segments plus the `.d.ts` suffix, so the `sourceRoot` segment is not
duplicated in the output path. -/
theorem relocated_mapping (command : Option Command) (out srcDir file t : String)
    (rsegs : List String) (create : String → Except String String)
    (habs : pathIsAbsolute file = true)
    (hout : ¬ out = "")
    (hsegs : pathSegs file = pathSegs srcDir ++ rsegs)
    (hc : create file = Except.ok t) :
    (generateTypeDefinitions command (some out) srcDir create file).written
      = some (pathJoin out (joinSegs rsegs ++ ".d.ts"), t) := by
  have hbeq : (out == "") = false := by
    simp only [beq_eq_false_iff_ne, ne_eq]
    exact hout
  simp [generateTypeDefinitions, hc, hbeq, getRelativePath, habs, pathRelative, hsegs,
    relSegs_append_right]

/-- Claim C8 witness: the spec's Scenario B —
`/proj/src/components/Button.module.css` under source root `/proj/src`
with output root `/proj/out` maps to
`/proj/out/components/Button.module.css.d.ts` (no duplicated `src`). -/
theorem relocated_mapping_witness :
    (generateTypeDefinitions (some .build) (some "/proj/out") "/proj/src"
        (fun _ => Except.ok "T") "/proj/src/components/Button.module.css").written
      = some (pathJoin "/proj/out" (joinSegs ["components", "Button.module.css"] ++ ".d.ts"), "T")
  ∧ pathJoin "/proj/out" (joinSegs ["components", "Button.module.css"] ++ ".d.ts")
      = "/proj/out/components/Button.module.css.d.ts" :=
  ⟨relocated_mapping (some .build) "/proj/out" "/proj/src" "/proj/src/components/Button.module.css"
      "T" ["components", "Button.module.css"] (fun _ => Except.ok "T")
      (by decide) (by decide) (by decide) rfl,
    by decide⟩

/-- Claim C9 (code evaluated at the failing input): with default options
(no `rootDir`, in-place mode) the Discovery Scanner walks the resolved
`srcDir` `/proj/src` and not the project root `/proj` — the layout of the
repository's own `build` test, whose stylesheet sits at the project root
and is therefore never visited.  The crawl itself does exclude
`node_modules` unconditionally, traverses every other directory, and
applies the scope filter to every visited file (third conjunct). -/
theorem scanner_walks_srcdir_always :
    scanRoot none "/proj" = "/proj/src"
  ∧ ¬ (scanRoot none "/proj" = "/proj")
  ∧ getAllMatchingFiles (pluginFilter (FilterPattern.str defaultFilesGlob) none) "/proj/src"
      [FsEntry.dir "node_modules" [FsEntry.file "x.module.css"],
       FsEntry.dir "components" [FsEntry.file "b.module.css"],
       FsEntry.file "a.module.css", FsEntry.file "a.module.css.d.ts"]
      = ["/proj/src/components/b.module.css", "/proj/src/a.module.css"] := by
  refine ⟨?_, ?_, ?_⟩ <;> decide

/-- Claim C10: the `srcDir` containment test is a pure lexical predicate:
`isInFolder f d` is definitionally the check that the relative path from
`d` to `f` does not start with `".."` (first conjunct); it returns true
when the file path equals the folder path (second conjunct); and it
returns false for a path in a sibling directory whose name extends the
folder's final segment `n` by a nonempty suffix `t` — string-prefix
similarity of names does not count as containment (third conjunct). -/
theorem isInFolder_lexical (p d f : String) (D rest : List String) (n t : String)
    (ht : ¬ t = "")
    (hd : pathSegs d = D ++ [n])
    (hf : pathSegs f = D ++ (n ++ t) :: rest) :
    (∀ a b : String, isInFolder a b = !(jsStartsWith (pathRelative b a) ".."))
  ∧ isInFolder p p = true
  ∧ isInFolder f d = false := by
  refine ⟨fun a b => rfl, ?_, ?_⟩
  · simp only [isInFolder, pathRelative]
    rw [relSegs_self]
    decide
  · simp only [isInFolder, pathRelative]
    rw [hd, hf, relSegs_common D [n] ((n ++ t) :: rest)]
    have hne : ¬ (n = n ++ t) := fun he => append_ne_self_of_ne_empty n t ht he.symm
    have hrw : relSegs [n] ((n ++ t) :: rest) = ".." :: (n ++ t) :: rest := by
      simp [relSegs, hne]
    rw [hrw, jsStartsWith_joinSegs_dotdot]
    rfl

/-- Claim C10 witness: `/a/srcfoo/file.css` is not inside `/a/src` even
though the directory name `srcfoo` has `src` as a string prefix, while a
path is inside itself. -/
theorem isInFolder_lexical_witness :
    (∀ a b : String, isInFolder a b = !(jsStartsWith (pathRelative b a) ".."))
  ∧ isInFolder "/x" "/x" = true
  ∧ isInFolder "/a/srcfoo/file.css" "/a/src" = false :=
  isInFolder_lexical "/x" "/a/src" "/a/srcfoo/file.css" ["a"] ["file.css"] "src" "foo"
    (by decide) (by decide) (by decide)

/-- Claim C1 counterexample: the declaration output path is NOT independent
of whether the source path is passed as absolute or as the equivalent path
relative to the project root.  With project root `/proj`, source root
`/proj/src` and output root `/proj/out`, the absolute form
`/proj/src/a.module.css` maps to `/proj/out/a.module.css.d.ts` while the
relative form `src/a.module.css` maps to
`/proj/out/src/a.module.css.d.ts` — the two disagree. -/
theorem mapping_abs_rel_disagree :
    (generateTypeDefinitions (some .build) (some "/proj/out") "/proj/src"
        (fun _ => Except.ok "T") "/proj/src/a.module.css").written
      = some ("/proj/out/a.module.css.d.ts", "T")
  ∧ (generateTypeDefinitions (some .build) (some "/proj/out") "/proj/src"
        (fun _ => Except.ok "T") "src/a.module.css").written
      = some ("/proj/out/src/a.module.css.d.ts", "T")
  ∧ ¬ ((generateTypeDefinitions (some .build) (some "/proj/out") "/proj/src"
        (fun _ => Except.ok "T") "/proj/src/a.module.css").written
      = (generateTypeDefinitions (some .build) (some "/proj/out") "/proj/src"
        (fun _ => Except.ok "T") "src/a.module.css").written) := by
  refine ⟨?_, ?_, ?_⟩ <;> decide

/-- Claim C1 (amended): the mapping is deterministic — a pure function of
the resolved configuration and the input — but a relative input is used
verbatim: it is joined unchanged under the output root (first conjunct)
and its output does not depend on the configured source root at all
(second conjunct), with no normalization against the project root. -/
theorem mapping_relative_input_verbatim (command : Option Command)
    (rootOut srcDirA srcDirB r t : String) (create : String → Except String String)
    (hrel : pathIsAbsolute r = false)
    (hroot : ¬ rootOut = "")
    (hc : create r = Except.ok t) :
    (generateTypeDefinitions command (some rootOut) srcDirA create r).written
      = some (pathJoin rootOut (r ++ ".d.ts"), t)
  ∧ (generateTypeDefinitions command (some rootOut) srcDirA create r).written
      = (generateTypeDefinitions command (some rootOut) srcDirB create r).written := by
  have hbeq : (rootOut == "") = false := by
    simp only [beq_eq_false_iff_ne, ne_eq]
    exact hroot
  constructor <;> simp [generateTypeDefinitions, hc, hbeq, getRelativePath, hrel]

/-- Claim C1 witness: the amended theorem at the relative input
`src/a.module.css` under two different source roots. -/
theorem mapping_relative_input_verbatim_witness :
    (generateTypeDefinitions (some .build) (some "/proj/out") "/proj/src"
        (fun _ => Except.ok "T") "src/a.module.css").written
      = some (pathJoin "/proj/out" ("src/a.module.css" ++ ".d.ts"), "T")
  ∧ (generateTypeDefinitions (some .build) (some "/proj/out") "/proj/src"
        (fun _ => Except.ok "T") "src/a.module.css").written
      = (generateTypeDefinitions (some .build) (some "/proj/out") "/other"
        (fun _ => Except.ok "T") "src/a.module.css").written :=
  mapping_relative_input_verbatim (some .build) "/proj/out" "/proj/src" "/other"
    "src/a.module.css" "T" (fun _ => Except.ok "T") (by decide) (by decide) rfl

end VitePluginTypedCssModules
